import Mathlib

/-!
Verification development for the groundwater-balance pipeline of the
JalNiti farmer backend (`app/balance.py`).

The Python module is shallowly embedded here:

* Python values that flow through the INGRES registry payloads are
  modelled by the inductive type `PyVal`; machine floats are modelled by
  exact rationals `ℚ`.
* Fallible Python operations (`float(...)`, numpy indexing) return
  `Except PyExc`.
* The geospatial environment (resolved administrative names, the taluka
  area table, the INGRES registry dataset, the remote business-data
  service, the lithology raster, the elevation service) is bundled in a
  `PipelineEnv` record; the corresponding network / file reads in the
  source are modelled as reads from that record.
* The rapidfuzz `WRatio` scorer is an external library function; it is
  modelled as an abstract score function `String → String → ℚ`, and
  `process.extractOne` is modelled by its documented semantics
  (best score at or above the cutoff, first candidate on ties).
-/

/-- Outcome of a Python exception inside the pipeline. -/
inductive PyExc where
  | typeError
  | valueError
  | indexError
  | attributeError
deriving DecidableEq

/-- Model of the Python values carried by INGRES payload fields:
`None`, ints, floats (as exact rationals), strings and dicts
(association lists of string keys). -/
inductive PyVal where
  | none
  | int (n : ℤ)
  | float (q : ℚ)
  | str (s : String)
  | dict (fields : List (String × PyVal))

/-- Python truthiness (`bool(v)`) for the modelled values. -/
def PyVal.truthy : PyVal → Bool
  | PyVal.none => false
  | PyVal.int n => decide (n ≠ 0)
  | PyVal.float q => decide (q ≠ 0)
  | PyVal.str s => !(s == "")
  | PyVal.dict fs => !fs.isEmpty

/-- Digit run to a natural number (used by the model of `float(str)`). -/
def natOfDigits (l : List Char) : ℕ :=
  l.foldl (fun a c => a * 10 + (c.toNat - 48)) 0

/-- Split a character list at the first dot, if any. -/
def splitDot : List Char → List Char × Option (List Char)
  | [] => ([], Option.none)
  | c :: r =>
    if c = '.' then ([], some r)
    else
      let p := splitDot r
      (c :: p.1, p.2)

/-- Model of parsing a plain decimal string as Python `float` does
(optional sign, digits, optional fractional part); exotic float syntax
(exponents, `inf`, `nan`, surrounding whitespace) is out of scope for
the data exercised by the claims. -/
def parseFloat (s : String) : Option ℚ :=
  let l := s.data
  let sl : ℚ × List Char :=
    match l with
    | c :: r => if c = '-' then (-1, r) else if c = '+' then (1, r) else (1, l)
    | [] => (1, l)
  let p := splitDot sl.2
  let ip := p.1
  match p.2 with
  | Option.none =>
    if ip ≠ [] ∧ ip.all Char.isDigit then some (sl.1 * natOfDigits ip) else Option.none
  | some fp =>
    if (ip ≠ [] ∨ fp ≠ []) ∧ ip.all Char.isDigit ∧ fp.all Char.isDigit then
      some (sl.1 * ((natOfDigits ip : ℚ) + (natOfDigits fp : ℚ) / (10 : ℚ) ^ fp.length))
    else Option.none

/-- Model of the Python builtin `float(v)`: numeric values are returned
as rationals, numeric strings are parsed, everything else raises
(`TypeError` for `None`/dicts, `ValueError` for unparsable strings). -/
def pyFloat : PyVal → Except PyExc ℚ
  | PyVal.int n => Except.ok (n : ℚ)
  | PyVal.float q => Except.ok q
  | PyVal.str s =>
    match parseFloat s with
    | some q => Except.ok q
    | Option.none => Except.error PyExc.valueError
  | PyVal.none => Except.error PyExc.typeError
  | PyVal.dict _ => Except.error PyExc.typeError

/-- Model of Python `str(v)`. Only string payloads are rendered exactly;
the textual rendering of numbers and dicts is abstracted (the claims
never depend on it, because any such rendering is immediately fed into
a factor-table lookup that treats unknown strings uniformly). -/
def pyStr : PyVal → String
  | PyVal.none => "None"
  | PyVal.str s => s
  | PyVal.int n => toString n
  | PyVal.float q => toString q
  | PyVal.dict _ => "{}"

/-- Python `round` with zero digits: round-half-to-even to an integer. -/
def pythonRound (q : ℚ) : ℤ :=
  let f := ⌊q⌋
  let r := q - (f : ℚ)
  if r < 1 / 2 then f
  else if 1 / 2 < r then f + 1
  else if f % 2 = 0 then f else f + 1

/-- Python `round(q, 2)` on the idealized (exact rational) reading of
the pipeline arithmetic. -/
def round2 (q : ℚ) : ℚ :=
  (pythonRound (q * 100) : ℚ) / 100

/-- One character of Python `str.title()`: a character following an
alphabetic character is lowercased, every other character is
uppercased. -/
def pyTitleChar (prevAlpha : Bool) (c : Char) : Char :=
  if prevAlpha then c.toLower else c.toUpper

/-- Worker for `pyTitle`, threading whether the previous source
character was alphabetic. -/
def pyTitleAux : Bool → List Char → List Char
  | _, [] => []
  | prevAlpha, c :: rest => pyTitleChar prevAlpha c :: pyTitleAux c.isAlpha rest

/-- Model of Python `str.title()` for the basic-latin strings handled
by this module. -/
def pyTitle (s : String) : String :=
  String.mk (pyTitleAux false s.data)

/-- Model of Python `str.lower()` for the basic-latin strings handled
by this module (character-list map, so that concrete instances
evaluate). -/
def pyLower (s : String) : String :=
  String.mk (s.data.map Char.toLower)

/-- The `CATEGORY_FACTOR` table of `balance.py`. -/
def CATEGORY_FACTOR : List (String × ℚ) :=
  [("Safe", 0.40), ("Semi-Critical", 0.25), ("Critical", 0.10), ("Over-exploited", 0.05)]

/-- The lookup `CATEGORY_FACTOR.get(category, 0.10)`. -/
def categoryFactorGet (category : String) : ℚ :=
  (List.lookup category CATEGORY_FACTOR).getD 0.10

/-- The `LITHOLOGY_FACTOR` table of `balance.py` (codes 0–5). -/
def LITHOLOGY_FACTOR : List (ℤ × ℚ) :=
  [(1, 1.00), (2, 1.00), (3, 1.00), (4, 1.00), (5, 1.00), (0, 1.00)]

/-- The lookup `LITHOLOGY_FACTOR.get(lithology_code, 0.50)`. -/
def lithologyFactorGet (code : ℤ) : ℚ :=
  (List.lookup code LITHOLOGY_FACTOR).getD 0.50

/-- The constant `LIFECYCLE_FACTOR = 0.70` of `balance.py`. -/
def LIFECYCLE_FACTOR : ℚ := 0.70

/-- The function `slope_factor` of `balance.py`: the tiered logic is
commented out in the source and the function returns `1.0` for every
input. -/
def slope_factor (_slope_deg : ℚ) : ℚ := 1.0

/-- One record of the INGRES registry dataset
(`India_Ingris_Data_Complete.json`). Only `locationName` participates
in matching; the remaining identifying fields are abstracted into a
single tag so that distinct records stay distinguishable. -/
structure IngresLoc where
  locationName : String
  uuid : ℕ
deriving DecidableEq

/-- Model of `rapidfuzz.process.extractOne(query, choices, scorer, score_cutoff)`
by its documented semantics: the candidate with the highest score among
those scoring at least the cutoff, the earliest candidate winning ties;
`None` when every candidate scores below the cutoff. The source applies
it to the list of candidate names and then indexes the parallel
candidate list, which is modelled here by folding directly over the
candidates. -/
def extractOne {α : Type} (f : α → ℚ) (cutoff : ℚ) : List α → Option (α × ℚ)
  | [] => Option.none
  | x :: rest =>
    match extractOne f cutoff rest with
    | Option.none => if cutoff ≤ f x then some (x, f x) else Option.none
    | some (m, t) => if cutoff ≤ f x ∧ t ≤ f x then some (x, f x) else some (m, t)

/-- The function `search_by_location_name` of `balance.py`: first an
exact case-insensitive scan over `locationName`, then a fuzzy
`extractOne` fallback gated by the score cutoff. -/
def search_by_location_name (score : String → String → ℚ) (locations : List IngresLoc)
    (query : String) (score_cutoff : ℚ) : Option IngresLoc :=
  match locations.find? (fun loc => pyLower loc.locationName == pyLower query) with
  | some loc => some loc
  | Option.none =>
    match extractOne (fun loc => score query loc.locationName) score_cutoff locations with
    | some p => some p.1
    | Option.none => Option.none

/-- First element of a list attaining the maximal value of `f`
(earlier elements win ties). Used only to phrase the specification-side
matcher of the refinement claim. -/
def argmaxFirst {α : Type} (f : α → ℚ) : List α → Option α
  | [] => Option.none
  | x :: xs =>
    match argmaxFirst f xs with
    | Option.none => some x
    | some y => if f x < f y then some y else some x

/-- Registry Matcher as worded by the specification (section 4.4):
exact case-insensitive equality first, first match wins; otherwise
score every candidate, choose the single highest-scoring candidate
(first in input order on ties) and return it only when its score
reaches the cutoff. -/
def registryMatcherSpec (score : String → String → ℚ) (locations : List IngresLoc)
    (query : String) (score_cutoff : ℚ) : Option IngresLoc :=
  match locations.find? (fun loc => pyLower loc.locationName == pyLower query) with
  | some loc => some loc
  | Option.none =>
    match argmaxFirst (fun loc => score query loc.locationName) locations with
    | Option.none => Option.none
    | some best =>
      if score_cutoff ≤ score query best.locationName then some best else Option.none

/-- Truthiness of an optional administrative name (Python `if taluka:`):
false for `None` and for the empty string. -/
def optTruthy : Option String → Bool
  | Option.none => false
  | some s => !(s == "")

/-- The function `fetch_ingres_with_fallback` of `balance.py`. The
registry JSON read from disk is the `ingres_data` argument. Fine-grained
unit = taluka, coarse-grained unit = district (spec glossary). -/
def fetch_ingres_with_fallback (score : String → String → ℚ) (ingres_data : List IngresLoc)
    (taluka district : Option String) : Option IngresLoc × Option String :=
  match (if optTruthy taluka then
            search_by_location_name score ingres_data (taluka.getD "") 70
          else Option.none) with
  | some m => (some m, some ("taluka"))
  | Option.none =>
    match (if optTruthy district then
              search_by_location_name score ingres_data (district.getD "") 70
            else Option.none) with
    | some m => (some m, some ("district"))
    | Option.none => (Option.none, Option.none)

/-- One entry of the business-data service response; each field holds
the `entry.get(key)` value, with `PyVal.none` standing for a missing
key. -/
structure IngresEntry where
  locationName : PyVal
  totalGWAvailability : PyVal
  availabilityForFutureUse : PyVal
  stageOfExtraction : PyVal
  category : PyVal

/-- The function `shorten_ingres_response` of `balance.py`: the
`for`-loop returns the projection of the first entry, and falls through
to `None` on an empty response. Field projection is the identity in
this model because `IngresEntry` already carries exactly the five
projected fields. -/
def shorten_ingres_response : List IngresEntry → Option IngresEntry
  | [] => Option.none
  | e :: _ => some e

/-- The function `extract_mcm` of `balance.py`. The dict branch applies
the Python builtin `float` to the selected field, which can raise. -/
def extract_mcm : PyVal → Except PyExc ℚ
  | PyVal.none => Except.ok 0
  | PyVal.int n => Except.ok (n : ℚ)
  | PyVal.float q => Except.ok q
  | PyVal.dict fs =>
    match List.lookup ("total") fs with
    | some v => pyFloat v
    | Option.none =>
      match List.lookup ("non_command") fs with
      | some v => pyFloat v
      | Option.none => Except.ok 0
  | PyVal.str _ => Except.ok 0

/-- The function `extract_category` of `balance.py`. -/
def extract_category (cat : PyVal) : String :=
  if cat.truthy = false then "Critical"
  else
    match cat with
    | PyVal.str s => pyTitle s
    | PyVal.dict fs =>
      match List.lookup ("total") fs with
      | some v =>
        if v.truthy then pyTitle (pyStr v)
        else
          match List.lookup ("non_command") fs with
          | some w => if w.truthy then pyTitle (pyStr w) else "Critical"
          | Option.none => "Critical"
      | Option.none =>
        match List.lookup ("non_command") fs with
        | some w => if w.truthy then pyTitle (pyStr w) else "Critical"
        | Option.none => "Critical"
    | _ => "Critical"

/-- The function `get_taluka_area_sq_km` of `balance.py`; the
`taluka_areas.json` table is the `taluka_areas` argument, a list of
`(sdtname, area_km2)` rows. -/
def get_taluka_area_sq_km (score : String → String → ℚ) (taluka_areas : List (String × ℚ))
    (taluka_name : String) : Option ℚ :=
  match taluka_areas.find? (fun e => pyLower e.1 == pyLower taluka_name) with
  | some e => some e.2
  | Option.none =>
    match extractOne (fun e => score taluka_name e.1) 70 taluka_areas with
    | some p => some p.1.2
    | Option.none => Option.none

/-- A north-up single-band raster in its native planar coordinate
system: grid origin at the top-left corner `(left, top)`, positive
pixel sizes `xres`, `yres`, and the band contents as a function of
(row, column). -/
structure Raster where
  rows : ℕ
  cols : ℕ
  data : ℕ → ℕ → ℤ
  left : ℚ
  top : ℚ
  xres : ℚ
  yres : ℚ

/-- Model of rasterio `ds.index(x, y)` for a north-up raster: the
(row, column) cell indices of a projected coordinate, by flooring. -/
def dsIndex (ds : Raster) (x y : ℚ) : ℤ × ℤ :=
  (⌊(ds.top - y) / ds.yres⌋, ⌊(x - ds.left) / ds.xres⌋)

/-- Model of numpy integer indexing along one axis of length `n`:
indices in `[0, n)` are taken as-is, indices in `[-n, 0)` wrap around
to the end of the axis, and anything else raises `IndexError`. -/
def npAxisIndex (n : ℕ) (i : ℤ) : Except PyExc ℕ :=
  if 0 ≤ i ∧ i < (n : ℤ) then Except.ok i.toNat
  else if -(n : ℤ) ≤ i ∧ i < 0 then Except.ok (i + (n : ℤ)).toNat
  else Except.error PyExc.indexError

/-- The function `sample_raster` of `balance.py`: reproject the
coordinate into the raster's system (the pyproj transform is modelled
as the identity, so `x = lon`, `y = lat` are already native
coordinates), take the cell index, and read the band with numpy
indexing semantics. -/
def sample_raster (ds : Raster) (lat lon : ℚ) : Except PyExc ℤ :=
  match npAxisIndex ds.rows (dsIndex ds lon lat).1 with
  | Except.error e => Except.error e
  | Except.ok r =>
    match npAxisIndex ds.cols (dsIndex ds lon lat).2 with
    | Except.error e => Except.error e
    | Except.ok c => Except.ok (ds.data r c)

/-- Membership of a projected coordinate in the raster extent:
`x` within `[left, left + cols·xres)` and `y` within
`(top - rows·yres, top]`. -/
def insideExtent (ds : Raster) (x y : ℚ) : Prop :=
  ds.left ≤ x ∧ x < ds.left + (ds.cols : ℚ) * ds.xres ∧
    y ≤ ds.top ∧ ds.top - (ds.rows : ℚ) * ds.yres < y

instance (ds : Raster) (x y : ℚ) : Decidable (insideExtent ds x y) := by
  unfold insideExtent
  infer_instance

/-- Error messages returned as structured `{"error": ...}` objects by
the pipeline. -/
inductive ErrMsg where
  | talukaUnresolved
  | talukaAreaNotFound
  | noIngresData
deriving DecidableEq

/-- The `basis` record of the pipeline's final structured output. -/
structure BalanceBasis where
  level_used : Option String
  category : String
  farm_area_ares : ℚ
  taluka_area_sq_km : ℚ
  lithology_code : ℤ
  lifecycle : String
deriving DecidableEq

/-- The successful structured output of the pipeline. -/
structure BalanceResult where
  groundwater_available_litres : ℚ
  basis : BalanceBasis
deriving DecidableEq

/-- Observable outcome of a pipeline run: a structured result, a
structured `{"error": ...}` object, or an uncaught Python exception. -/
inductive Outcome where
  | ok (res : BalanceResult)
  | err (msg : ErrMsg)
  | exc (e : PyExc)
deriving DecidableEq

/-- Environment of one request: everything the pipeline reads from
files, geodata layers and remote services. `admin_taluka` and
`admin_district` are the result of `get_admin_from_latlon` (the
point-in-polygon resolution over the loaded GeoJSON layers),
`taluka_areas` is the parsed `taluka_areas.json`, `ingres_data` the
parsed registry JSON, `business_data` the response of the INGRES
business-data HTTP service per matched record, `raster` the lithology
GeoTIFF and `slope_deg` the value produced by `get_slope` (the
elevation HTTP service). -/
structure PipelineEnv where
  score : String → String → ℚ
  admin_taluka : Option String
  admin_district : Option String
  taluka_areas : List (String × ℚ)
  ingres_data : List IngresLoc
  business_data : IngresLoc → List IngresEntry
  raster : Raster
  slope_deg : ℚ

/-- The function `calculate_groundwater_balance` of `balance.py`. The
admin resolution of its step 1 re-reads the same layers as the caller
and is the environment's `admin_taluka` / `admin_district`; the INGRES
business fetch of step 2 is the environment's `business_data`. A `None`
result of `shorten_ingres_response` makes the subsequent
`ingres_data.get(...)` attribute access raise; a non-numeric selected
availability field makes `float(...)` raise inside `extract_mcm`. -/
def calculate_groundwater_balance (env : PipelineEnv) (farm_area_ares taluka_area_sq_km : ℚ)
    (lithology_code : ℤ) (slope_deg : ℚ) : Outcome :=
  match fetch_ingres_with_fallback env.score env.ingres_data env.admin_taluka env.admin_district with
  | (Option.none, _) => Outcome.err ErrMsg.noIngresData
  | (some m, level_used) =>
    match shorten_ingres_response (env.business_data m) with
    | Option.none => Outcome.exc PyExc.attributeError
    | some d =>
      match extract_mcm d.availabilityForFutureUse with
      | Except.error e => Outcome.exc e
      | Except.ok gw_mcm =>
        let taluka_gw_litres := gw_mcm * 1000000 * 1000
        let taluka_area_ares := taluka_area_sq_km * 10000
        let area_fraction := farm_area_ares / taluka_area_ares
        let farm_entitlement := taluka_gw_litres * area_fraction
        let category := extract_category d.category
        let cat_factor := categoryFactorGet category
        let litho_factor := lithologyFactorGet lithology_code
        let slp_factor := slope_factor slope_deg
        let final_litres :=
          farm_entitlement * cat_factor * litho_factor * slp_factor * LIFECYCLE_FACTOR
        Outcome.ok
          { groundwater_available_litres := round2 final_litres * 100,
            basis :=
              { level_used := level_used,
                category := category,
                farm_area_ares := farm_area_ares,
                taluka_area_sq_km := taluka_area_sq_km,
                lithology_code := lithology_code,
                lifecycle := "single crop" } }

/-- The function `groundwater_balance_from_api_input` of `balance.py`
(the Flask entry point body after JSON field extraction): resolve the
admin names, guard on a falsy taluka, look up and guard the taluka
area (`if not taluka_area_sq_km:` — falsy for `None` and `0`), sample
the lithology raster (whose `IndexError` propagates uncaught), read
the slope value, and delegate to `calculate_groundwater_balance`. -/
def groundwater_balance_from_api_input (env : PipelineEnv) (lat lon farm_area_ares : ℚ) :
    Outcome :=
  if optTruthy env.admin_taluka = false then Outcome.err ErrMsg.talukaUnresolved
  else
    match get_taluka_area_sq_km env.score env.taluka_areas (env.admin_taluka.getD "") with
    | Option.none => Outcome.err ErrMsg.talukaAreaNotFound
    | some a =>
      if a = 0 then Outcome.err ErrMsg.talukaAreaNotFound
      else
        match sample_raster env.raster lat lon with
        | Except.error e => Outcome.exc e
        | Except.ok code =>
          calculate_groundwater_balance env farm_area_ares a code env.slope_deg

/-- Gate an `argmaxFirst` result by the score cutoff (proof-side helper
relating `extractOne` to `argmaxFirst`). -/
def gateCutoff {α : Type} (f : α → ℚ) (cutoff : ℚ) : Option α → Option (α × ℚ)
  | Option.none => Option.none
  | some b => if cutoff ≤ f b then some (b, f b) else Option.none

/-- Range of integer indices numpy accepts for an axis of length `n`
without raising: `[-n, n)`. -/
def npInRange (n : ℕ) (i : ℤ) : Prop :=
  -(n : ℤ) ≤ i ∧ i < (n : ℤ)

instance (n : ℕ) (i : ℤ) : Decidable (npInRange n i) := by
  unfold npInRange
  infer_instance

/-- Degenerate score function for concrete test environments (the
fuzzy fallback is unused whenever an exact name match exists). -/
def scoreZero : String → String → ℚ := fun _ _ => 0

/-- Concrete registry record used by the witnesses. -/
def locX : IngresLoc :=
  { locationName := ("X"), uuid := 0 }

/-- Concrete business-data entry used by the witnesses: availability
1 MCM, category "Safe". -/
def entryX : IngresEntry :=
  { locationName := PyVal.str ("X"),
    totalGWAvailability := PyVal.none,
    availabilityForFutureUse := PyVal.float 1,
    stageOfExtraction := PyVal.none,
    category := PyVal.str ("Safe") }

/-- Concrete 2×2 north-up raster used by the witnesses: extent
`[0, 2) × (0, 2]`, cell values `row·2 + column`. -/
def rasterT : Raster :=
  { rows := 2, cols := 2, data := fun r c => (r * 2 + c : ℤ),
    left := 0, top := 2, xres := 1, yres := 1 }

/-- Concrete happy-path environment: taluka "X" with area 100 km²,
registry availability 1 MCM, category "Safe". -/
def envX : PipelineEnv :=
  { score := scoreZero,
    admin_taluka := some ("X"),
    admin_district := some ("D"),
    taluka_areas := [("X", 100)],
    ingres_data := [locX],
    business_data := fun _ => [entryX],
    raster := rasterT,
    slope_deg := 5 }

/-- The happy-path environment with a negative taluka area. -/
def envNegArea : PipelineEnv :=
  { envX with taluka_areas := [("X", -5)] }

/-- The happy-path environment with a zero taluka area. -/
def envZeroArea : PipelineEnv :=
  { envX with taluka_areas := [("X", 0)] }

/-- The happy-path environment with an empty business-data response. -/
def envEmptyBiz : PipelineEnv :=
  { envX with business_data := fun _ => [] }

/-- Unpacking a packed valid codepoint returns the codepoint. -/
theorem char_toNat_ofNat (n : Nat) (h : n.isValidChar) : (Char.ofNat n).toNat = n := by
  simp [Char.ofNat, h, Char.ofNatAux, Char.toNat, UInt32.toNat]

/-- Unsigned 32-bit comparison agrees with comparison of the values. -/
theorem uint32_le_iff (a b : UInt32) : a ≤ b ↔ a.toNat ≤ b.toNat := by
  rw [UInt32.le_def, BitVec.le_def]
  rfl

/-- Numeric characterization of `Char.isLower`. -/
theorem char_isLower_iff (c : Char) : c.isLower = true ↔ 97 ≤ c.toNat ∧ c.toNat ≤ 122 := by
  have e97 : (97 : UInt32).toNat = 97 := rfl
  have e122 : (122 : UInt32).toNat = 122 := rfl
  simp only [Char.isLower, ge_iff_le, Bool.and_eq_true, decide_eq_true_eq, uint32_le_iff,
    e97, e122]
  exact Iff.rfl

/-- Numeric characterization of `Char.isUpper`. -/
theorem char_isUpper_iff (c : Char) : c.isUpper = true ↔ 65 ≤ c.toNat ∧ c.toNat ≤ 90 := by
  have e65 : (65 : UInt32).toNat = 65 := rfl
  have e90 : (90 : UInt32).toNat = 90 := rfl
  simp only [Char.isUpper, ge_iff_le, Bool.and_eq_true, decide_eq_true_eq, uint32_le_iff,
    e65, e90]
  exact Iff.rfl

/-- Uppercasing never produces a lowercase basic-latin letter. -/
theorem toUpper_isLower_false (c : Char) : (c.toUpper).isLower = false := by
  unfold Char.toUpper
  by_cases h : 97 ≤ c.toNat ∧ c.toNat ≤ 122
  · rw [if_pos h]
    have hv : Nat.isValidChar (c.toNat - 32) := Or.inl (by omega)
    have ht := char_toNat_ofNat (c.toNat - 32) hv
    rw [Bool.eq_false_iff]
    intro hc
    rw [char_isLower_iff, ht] at hc
    omega
  · rw [if_neg h]
    rw [Bool.eq_false_iff]
    intro hc
    rw [char_isLower_iff] at hc
    omega

/-- Uppercasing preserves whether a character is alphabetic. -/
theorem toUpper_isAlpha (c : Char) : (c.toUpper).isAlpha = c.isAlpha := by
  unfold Char.toUpper
  by_cases h : 97 ≤ c.toNat ∧ c.toNat ≤ 122
  · rw [if_pos h]
    have hv : Nat.isValidChar (c.toNat - 32) := Or.inl (by omega)
    have ht := char_toNat_ofNat (c.toNat - 32) hv
    simp only [Char.isAlpha]
    have h1 : (Char.ofNat (c.toNat - 32)).isUpper = true := by
      rw [char_isUpper_iff, ht]
      omega
    have h2 : c.isLower = true := by
      rw [char_isLower_iff]
      omega
    rw [h1, h2]
    simp
  · rw [if_neg h]

/-- Lowercasing preserves whether a character is alphabetic. -/
theorem toLower_isAlpha (c : Char) : (c.toLower).isAlpha = c.isAlpha := by
  unfold Char.toLower
  by_cases h : 65 ≤ c.toNat ∧ c.toNat ≤ 90
  · rw [if_pos h]
    have hv : Nat.isValidChar (c.toNat + 32) := Or.inl (by omega)
    have ht := char_toNat_ofNat (c.toNat + 32) hv
    simp only [Char.isAlpha]
    have h1 : (Char.ofNat (c.toNat + 32)).isLower = true := by
      rw [char_isLower_iff, ht]
      omega
    have h2 : c.isUpper = true := by
      rw [char_isUpper_iff]
      omega
    rw [h1, h2]
    simp
  · rw [if_neg h]

/-- Title-casing preserves whether a character is alphabetic. -/
theorem pyTitleChar_isAlpha (prev : Bool) (c : Char) :
    (pyTitleChar prev c).isAlpha = c.isAlpha := by
  unfold pyTitleChar
  cases prev with
  | true => rw [if_pos rfl, toLower_isAlpha]
  | false => rw [if_neg (by simp), toUpper_isAlpha]

/-- In the output of `str.title()`, no lowercase letter directly
follows a non-alphabetic character. -/
theorem pyTitleAux_chain (prev : Bool) (l : List Char) :
    List.Chain' (fun a b : Char => a.isAlpha = false → b.isLower = false)
      (pyTitleAux prev l) := by
  induction l generalizing prev with
  | nil => simp [pyTitleAux]
  | cons c rest ih =>
    rw [pyTitleAux, List.chain'_cons']
    refine ⟨?_, ih c.isAlpha⟩
    intro y hy hx
    cases rest with
    | nil => simp [pyTitleAux] at hy
    | cons c2 r2 =>
      rw [pyTitleAux] at hy
      simp only [List.head?_cons, Option.mem_def, Option.some.injEq] at hy
      subst hy
      have hca : c.isAlpha = false := by
        rw [pyTitleChar_isAlpha] at hx
        exact hx
      rw [pyTitleChar, hca]
      rw [if_neg (by simp)]
      exact toUpper_isLower_false c2

/-- No string title-cases to the exact key `"Over-exploited"` (its
sixth character is a lowercase letter directly after the hyphen). -/
theorem pyTitle_ne_overexploited (s : String) : pyTitle s ≠ "Over-exploited" := by
  intro h
  have hc := pyTitleAux_chain false s.data
  have hdata : pyTitleAux false s.data = ("Over-exploited").data := congrArg String.data h
  have hlit : ("Over-exploited").data
      = 'O' :: 'v' :: 'e' :: 'r' :: '-' :: 'e' :: ("xploited").data := rfl
  rw [hdata, hlit] at hc
  simp only [List.chain'_cons] at hc
  have hdash : ('-').isAlpha = false := by decide
  have he : ('e').isLower = true := by decide
  have := hc.2.2.2.2.1 hdash
  rw [he] at this
  exact absurd this (by decide)

/-- The cutoff-filtered first-best fold of `extractOne` equals taking
the overall first-best candidate and then gating it by the cutoff. -/
theorem extractOne_eq_gate {α : Type} (f : α → ℚ) (cutoff : ℚ) (l : List α) :
    extractOne f cutoff l = gateCutoff f cutoff (argmaxFirst f l) := by
  induction l with
  | nil => rfl
  | cons x xs ih =>
    rw [extractOne, ih, argmaxFirst]
    cases h : argmaxFirst f xs with
    | none => simp only [gateCutoff]
    | some y =>
      by_cases hcy : cutoff ≤ f y
      · by_cases hxy : f x < f y
        · have hna : ¬(cutoff ≤ f x ∧ f y ≤ f x) := by
            rintro ⟨h1, h2⟩
            exact absurd hxy (not_lt.2 h2)
          simp [gateCutoff, hcy, hxy, hna]
        · have hyx : f y ≤ f x := not_lt.1 hxy
          have hcx : cutoff ≤ f x := le_trans hcy hyx
          simp [gateCutoff, hcy, hxy, hcx, hyx]
      · by_cases hxy : f x < f y
        · have hncx : ¬ cutoff ≤ f x := fun hc => hcy (le_trans hc (le_of_lt hxy))
          simp [gateCutoff, hcy, hxy, hncx]
        · by_cases hcx : cutoff ≤ f x
          · simp [gateCutoff, hcy, hxy, hcx]
          · simp [gateCutoff, hcy, hxy, hcx]

/-- C2: the Registry Matcher returns the first exact case-insensitive
name match, bypassing scoring entirely; otherwise it returns the single
highest-scoring candidate (first in input order on ties) exactly when
that score reaches the cutoff, and nothing otherwise. This is stated as
a refinement: `search_by_location_name` (embedded from the source)
coincides with `registryMatcherSpec` (worded from the specification)
for every score function, candidate list, query and cutoff; the
claim's corollaries (never below the cutoff, exact stored names win
regardless of the cutoff) read off directly. -/
theorem registry_matcher_refines_spec (score : String → String → ℚ)
    (locations : List IngresLoc) (query : String) (score_cutoff : ℚ) :
    search_by_location_name score locations query score_cutoff =
      registryMatcherSpec score locations query score_cutoff := by
  unfold search_by_location_name registryMatcherSpec
  cases hf : locations.find? (fun loc => pyLower loc.locationName == pyLower query) with
  | some loc => rfl
  | none =>
    rw [extractOne_eq_gate]
    cases h : argmaxFirst (fun loc => score query loc.locationName) locations with
    | none => rfl
    | some b =>
      simp only [gateCutoff]
      by_cases hc : score_cutoff ≤ score query b.locationName
      · rw [if_pos hc, if_pos hc]
      · rw [if_neg hc, if_neg hc]

/-- C3: the Groundwater Registry Resolver tries the fine-grained
(taluka) name first; on success it returns that match tagged "taluka"
and is independent of the coarse-grained (district) name; it returns a
"district"-tagged match only when the taluka lookup misses or the
taluka name is absent/empty; and it returns the fully absent pair
exactly when both lookups miss or both names are absent/empty. -/
theorem resolver_fallback_order (score : String → String → ℚ) (locs : List IngresLoc)
    (taluka district : Option String) :
    (∀ m : IngresLoc, optTruthy taluka = true →
      search_by_location_name score locs (taluka.getD "") 70 = some m →
      ∀ district2 : Option String,
        fetch_ingres_with_fallback score locs taluka district2 = (some m, some ("taluka"))) ∧
    (∀ m : IngresLoc,
      (optTruthy taluka = false ∨
        search_by_location_name score locs (taluka.getD "") 70 = Option.none) →
      optTruthy district = true →
      search_by_location_name score locs (district.getD "") 70 = some m →
      fetch_ingres_with_fallback score locs taluka district = (some m, some ("district"))) ∧
    (fetch_ingres_with_fallback score locs taluka district = (Option.none, Option.none) ↔
      ((optTruthy taluka = false ∨
          search_by_location_name score locs (taluka.getD "") 70 = Option.none) ∧
        (optTruthy district = false ∨
          search_by_location_name score locs (district.getD "") 70 = Option.none))) := by
  refine ⟨?_, ?_, ?_⟩
  · intro m ht hs district2
    unfold fetch_ingres_with_fallback
    rw [ht]
    simp only [if_true]
    rw [hs]
  · intro m hmiss hd hds
    unfold fetch_ingres_with_fallback
    rcases hmiss with ht | hs
    · rw [ht]
      simp only [if_false, Bool.false_eq_true]
      rw [hd]
      simp only [if_true]
      rw [hds]
    · cases ht : optTruthy taluka with
      | false =>
        simp only [ht, Bool.false_eq_true, if_false]
        rw [hd]
        simp only [if_true]
        rw [hds]
      | true =>
        simp only [ht, if_true]
        rw [hs]
        rw [hd]
        simp only [if_true]
        rw [hds]
  · unfold fetch_ingres_with_fallback
    cases ht : optTruthy taluka with
    | false =>
      simp only [Bool.false_eq_true, if_false]
      cases hd : optTruthy district with
      | false => simp
      | true =>
        simp only [if_true]
        cases hds : search_by_location_name score locs (district.getD "") 70 with
        | none => simp
        | some m => simp
    | true =>
      simp only [if_true]
      cases hts : search_by_location_name score locs (taluka.getD "") 70 with
      | none =>
        simp only
        cases hd : optTruthy district with
        | false => simp
        | true =>
          simp only [if_true]
          cases hds : search_by_location_name score locs (district.getD "") 70 with
          | none => simp
          | some m => simp
      | some m => simp

/-- C9: the slope provider's value does not influence the response:
runs of the calculator, and of the whole pipeline, that differ only in
the slope value produce identical outcomes, because the slope enters
only through `slope_factor` (constantly `1.0`) and is not recorded in
the basis. -/
theorem slope_value_noninterference (env : PipelineEnv) (lat lon farm area : ℚ)
    (litho : ℤ) (s1 s2 : ℚ) :
    calculate_groundwater_balance env farm area litho s1 =
        calculate_groundwater_balance env farm area litho s2 ∧
      groundwater_balance_from_api_input { env with slope_deg := s1 } lat lon farm =
        groundwater_balance_from_api_input { env with slope_deg := s2 } lat lon farm :=
  ⟨rfl, rfl⟩

/-- C5 counterexample: `extract_mcm` is not total — a structure whose
"total" field is `None` makes the inner `float(...)` raise a
`TypeError`, so the claim that no input makes it fail is false. -/
theorem extract_mcm_total_none_raises :
    extract_mcm (PyVal.dict [("total", PyVal.none)]) = Except.error PyExc.typeError := rfl

/-- C5 (amended): `extract_mcm` returns the value itself for numeric
inputs, `0.0` for `None`, strings and any other non-structure shape,
and for structures it applies `float` to the "total" field if the key
is present, else to the "non_command" field if present, else returns
`0.0`; the `float` coercion succeeds on numeric fields (covering the
spec's four examples) but raises when the selected field is not
numeric-coercible. -/
theorem extract_mcm_amended :
    (extract_mcm PyVal.none = Except.ok 0) ∧
    (∀ n : ℤ, extract_mcm (PyVal.int n) = Except.ok (n : ℚ)) ∧
    (∀ q : ℚ, extract_mcm (PyVal.float q) = Except.ok q) ∧
    (∀ s : String, extract_mcm (PyVal.str s) = Except.ok 0) ∧
    (∀ fs v, List.lookup ("total") fs = some v →
      extract_mcm (PyVal.dict fs) = pyFloat v) ∧
    (∀ fs v, List.lookup ("total") fs = Option.none →
      List.lookup ("non_command") fs = some v →
      extract_mcm (PyVal.dict fs) = pyFloat v) ∧
    (∀ fs, List.lookup ("total") fs = Option.none →
      List.lookup ("non_command") fs = Option.none →
      extract_mcm (PyVal.dict fs) = Except.ok 0) ∧
    (∀ n : ℤ, pyFloat (PyVal.int n) = Except.ok (n : ℚ)) ∧
    (∀ q : ℚ, pyFloat (PyVal.float q) = Except.ok q) ∧
    extract_mcm (PyVal.dict [("total", PyVal.float 5)]) = Except.ok 5 ∧
    extract_mcm (PyVal.dict [("non_command", PyVal.float 3)]) = Except.ok 3 ∧
    extract_mcm (PyVal.int 7) = Except.ok 7 := by
  refine ⟨rfl, fun n => rfl, fun q => rfl, fun s => rfl, ?_, ?_, ?_,
    fun n => rfl, fun q => rfl, rfl, rfl, rfl⟩
  · intro fs v h
    rw [extract_mcm, h]
  · intro fs v h1 h2
    rw [extract_mcm, h1, h2]
  · intro fs h1 h2
    rw [extract_mcm, h1, h2]

/-- C5 witness: the amended dict rule applied at the spec's own example
`{"total": 5.0}`, whose field is numeric. -/
theorem extract_mcm_amended_witness :
    extract_mcm (PyVal.dict [("total", PyVal.float 5)]) = pyFloat (PyVal.float 5) :=
  extract_mcm_amended.2.2.2.2.1 [("total", PyVal.float 5)] (PyVal.float 5) rfl

/-- C6: the calculator's four correction factors are exactly the
source tables: category 0.40/0.25/0.10/0.05 for
Safe/Semi-Critical/Critical/Over-exploited with default 0.10 for every
other string; lithology 1.00 for every defined code 0–5 and 0.50
otherwise; slope constantly 1.00; lifecycle 0.70. -/
theorem correction_factor_tables :
    (categoryFactorGet ("Safe") = 0.40 ∧ categoryFactorGet ("Semi-Critical") = 0.25 ∧
      categoryFactorGet ("Critical") = 0.10 ∧ categoryFactorGet ("Over-exploited") = 0.05) ∧
    (∀ s : String, s ∉ (["Safe", "Semi-Critical", "Critical", "Over-exploited"] : List String) →
      categoryFactorGet s = 0.10) ∧
    (∀ c : ℤ, c ∈ ([0, 1, 2, 3, 4, 5] : List ℤ) → lithologyFactorGet c = 1.00) ∧
    (∀ c : ℤ, c ∉ ([0, 1, 2, 3, 4, 5] : List ℤ) → lithologyFactorGet c = 0.50) ∧
    (∀ x : ℚ, slope_factor x = 1.00) ∧
    LIFECYCLE_FACTOR = 0.70 := by
  refine ⟨⟨rfl, rfl, rfl, rfl⟩, ?_, ?_, ?_, fun x => by norm_num [slope_factor], rfl⟩
  · intro s h
    simp only [List.mem_cons, List.not_mem_nil, or_false, not_or] at h
    obtain ⟨h1, h2, h3, h4⟩ := h
    have b1 : (s == "Safe") = false := beq_eq_false_iff_ne.2 h1
    have b2 : (s == "Semi-Critical") = false := beq_eq_false_iff_ne.2 h2
    have b3 : (s == "Critical") = false := beq_eq_false_iff_ne.2 h3
    have b4 : (s == "Over-exploited") = false := beq_eq_false_iff_ne.2 h4
    simp [categoryFactorGet, CATEGORY_FACTOR, List.lookup, b1, b2, b3, b4]
  · intro c h
    simp only [List.mem_cons, List.not_mem_nil, or_false] at h
    rcases h with h | h | h | h | h | h <;> subst h <;> rfl
  · intro c h
    simp only [List.mem_cons, List.not_mem_nil, or_false, not_or] at h
    obtain ⟨h0, h1, h2, h3, h4, h5⟩ := h
    have b0 : (c == 0) = false := beq_eq_false_iff_ne.2 h0
    have b1 : (c == 1) = false := beq_eq_false_iff_ne.2 h1
    have b2 : (c == 2) = false := beq_eq_false_iff_ne.2 h2
    have b3 : (c == 3) = false := beq_eq_false_iff_ne.2 h3
    have b4 : (c == 4) = false := beq_eq_false_iff_ne.2 h4
    have b5 : (c == 5) = false := beq_eq_false_iff_ne.2 h5
    simp [lithologyFactorGet, LITHOLOGY_FACTOR, List.lookup, b0, b1, b2, b3, b4, b5]

/-- C6 witness: the default branches of the tables evaluated at an
unknown category string and an unknown lithology code. -/
theorem correction_factor_tables_witness :
    categoryFactorGet ("Hello") = 0.10 ∧ lithologyFactorGet 9 = 0.50 :=
  ⟨correction_factor_tables.2.1 ("Hello") (by decide),
    correction_factor_tables.2.2.2.1 9 (by decide)⟩

/-- C10: when the business-data service returns an empty sequence,
`shorten_ingres_response` yields `None` and the calculator then
performs attribute access on that `None` — the run ends in an uncaught
`AttributeError`, never in the structured `{"error": ...}` object. -/
theorem empty_business_data_uncaught (env : PipelineEnv) (farm area : ℚ) (litho : ℤ)
    (slope : ℚ) (m : IngresLoc) (lvl : Option String)
    (hfetch : fetch_ingres_with_fallback env.score env.ingres_data env.admin_taluka
      env.admin_district = (some m, lvl))
    (hempty : env.business_data m = []) :
    shorten_ingres_response (env.business_data m) = Option.none ∧
    calculate_groundwater_balance env farm area litho slope = Outcome.exc PyExc.attributeError ∧
    ∀ e : ErrMsg, calculate_groundwater_balance env farm area litho slope ≠ Outcome.err e := by
  have hshort : shorten_ingres_response (env.business_data m) = Option.none := by
    rw [hempty]
    rfl
  have hcalc : calculate_groundwater_balance env farm area litho slope =
      Outcome.exc PyExc.attributeError := by
    unfold calculate_groundwater_balance
    rw [hfetch]
    simp only
    rw [hshort]
  exact ⟨hshort, hcalc, fun e he => by rw [hcalc] at he; exact Outcome.noConfusion he⟩

/-- C10 witness: the uncaught dereference observed on the concrete
environment whose business-data service returns the empty list. -/
theorem empty_business_data_uncaught_witness :
    calculate_groundwater_balance envEmptyBiz 1 100 1 0 = Outcome.exc PyExc.attributeError :=
  (empty_business_data_uncaught envEmptyBiz 1 100 1 0 locX (some ("taluka")) rfl rfl).2.1

/-- C1: whenever the pipeline inputs resolve (a registry match, a
first business-data entry and a numeric availability), the Entitlement
Calculator reports `groundwater_available_litres` equal to
`round(availabilityMcm · 1e9 · farmAreaAres / (talukaAreaSqKm · 10000)
· categoryFactor · lithologyFactor · slopeFactor · 0.70, 2) · 100`. -/
theorem entitlement_calculator_output (env : PipelineEnv) (farm area : ℚ) (litho : ℤ)
    (slope : ℚ) (m : IngresLoc) (lvl : Option String) (d : IngresEntry) (avail : ℚ)
    (hfetch : fetch_ingres_with_fallback env.score env.ingres_data env.admin_taluka
      env.admin_district = (some m, lvl))
    (hshort : shorten_ingres_response (env.business_data m) = some d)
    (hmcm : extract_mcm d.availabilityForFutureUse = Except.ok avail)
    (harea : 0 < area) :
    calculate_groundwater_balance env farm area litho slope = Outcome.ok
      { groundwater_available_litres :=
          round2 (avail * 1000000000 * farm / (area * 10000) *
            categoryFactorGet (extract_category d.category) * lithologyFactorGet litho *
            slope_factor slope * LIFECYCLE_FACTOR) * 100,
        basis :=
          { level_used := lvl,
            category := extract_category d.category,
            farm_area_ares := farm,
            taluka_area_sq_km := area,
            lithology_code := litho,
            lifecycle := ("single crop") } } := by
  unfold calculate_groundwater_balance
  rw [hfetch]
  simp only
  rw [hshort]
  simp only
  rw [hmcm]
  simp only
  have harg : avail * 1000000 * 1000 * (farm / (area * 10000)) *
      categoryFactorGet (extract_category d.category) * lithologyFactorGet litho *
      slope_factor slope * LIFECYCLE_FACTOR
      = avail * 1000000000 * farm / (area * 10000) *
        categoryFactorGet (extract_category d.category) * lithologyFactorGet litho *
        slope_factor slope * LIFECYCLE_FACTOR := by
    ring
  rw [harg]

/-- C1 witness: the end-to-end scenario of the specification —
availability 1 MCM, taluka area 100 km², farm area 1 are, category
"Safe", lithology code 1, slope factor 1.0 — reports exactly 28000. -/
theorem entitlement_calculator_output_witness :
    calculate_groundwater_balance envX 1 100 1 0 = Outcome.ok
      { groundwater_available_litres := 28000,
        basis :=
          { level_used := some ("taluka"),
            category := ("Safe"),
            farm_area_ares := 1,
            taluka_area_sq_km := 100,
            lithology_code := 1,
            lifecycle := ("single crop") } } := by
  have h := entitlement_calculator_output envX 1 100 1 0 locX (some ("taluka")) entryX 1
    rfl rfl rfl (by norm_num)
  rw [h]
  have hcat : extract_category entryX.category = ("Safe") := rfl
  have hfac : categoryFactorGet ("Safe") = 0.40 := rfl
  have hlit : lithologyFactorGet 1 = 1.00 := rfl
  have harg : (1 : ℚ) * 1000000000 * 1 / (100 * 10000) * (0.40 : ℚ) * (1.00 : ℚ) *
      slope_factor 0 * LIFECYCLE_FACTOR = 280 := by
    norm_num [slope_factor, LIFECYCLE_FACTOR]
  have hround : round2 280 * 100 = (28000 : ℚ) := by
    have hfloor : ⌊(280 * 100 : ℚ)⌋ = 28000 := by
      norm_num
    have hr : pythonRound (280 * 100 : ℚ) = 28000 := by
      unfold pythonRound
      rw [hfloor]
      norm_num
    rw [round2, hr]
    norm_num
  rw [hcat, hfac, hlit, harg, hround]

/-- Resolved-path closed form of the calculator (helper shared by the
functional-correctness and error-handling claims; no sign condition on
the area, since rational division is total and the source has no
guard inside the calculator). -/
theorem calculate_resolved (env : PipelineEnv) (farm area : ℚ) (litho : ℤ)
    (slope : ℚ) (m : IngresLoc) (lvl : Option String) (d : IngresEntry) (avail : ℚ)
    (hfetch : fetch_ingres_with_fallback env.score env.ingres_data env.admin_taluka
      env.admin_district = (some m, lvl))
    (hshort : shorten_ingres_response (env.business_data m) = some d)
    (hmcm : extract_mcm d.availabilityForFutureUse = Except.ok avail) :
    calculate_groundwater_balance env farm area litho slope = Outcome.ok
      { groundwater_available_litres :=
          round2 (avail * 1000000000 * farm / (area * 10000) *
            categoryFactorGet (extract_category d.category) * lithologyFactorGet litho *
            slope_factor slope * LIFECYCLE_FACTOR) * 100,
        basis :=
          { level_used := lvl,
            category := extract_category d.category,
            farm_area_ares := farm,
            taluka_area_sq_km := area,
            lithology_code := litho,
            lifecycle := ("single crop") } } := by
  unfold calculate_groundwater_balance
  rw [hfetch]
  simp only
  rw [hshort]
  simp only
  rw [hmcm]
  simp only
  have harg : avail * 1000000 * 1000 * (farm / (area * 10000)) *
      categoryFactorGet (extract_category d.category) * lithologyFactorGet litho *
      slope_factor slope * LIFECYCLE_FACTOR
      = avail * 1000000000 * farm / (area * 10000) *
        categoryFactorGet (extract_category d.category) * lithologyFactorGet litho *
        slope_factor slope * LIFECYCLE_FACTOR := by
    ring
  rw [harg]

/-- Any successful calculator outcome records the area it divided by in
its basis (helper). -/
theorem calculate_ok_basis_area (env : PipelineEnv) (farm a : ℚ) (litho : ℤ) (slope : ℚ)
    (r : BalanceResult)
    (h : calculate_groundwater_balance env farm a litho slope = Outcome.ok r) :
    r.basis.taluka_area_sq_km = a := by
  unfold calculate_groundwater_balance at h
  split at h
  · simp at h
  · split at h
    · simp at h
    · split at h
      · simp at h
      · simp only [Outcome.ok.injEq] at h
        subst h
        rfl

/-- C4 counterexample: a negative resolved taluka area is NOT caught —
the guard `if not taluka_area_sq_km:` only fires on a missing or zero
area, so with area −5 km² the pipeline silently computes and returns a
numeric (negative) result instead of failing fast. -/
theorem pipeline_negative_area_not_caught :
    get_taluka_area_sq_km envNegArea.score envNegArea.taluka_areas ("X") = some (-5) ∧
    ((-5 : ℚ) < 0) ∧
    groundwater_balance_from_api_input envNegArea 1 0 1 = Outcome.ok
      { groundwater_available_litres := -560000,
        basis :=
          { level_used := some ("taluka"),
            category := ("Safe"),
            farm_area_ares := 1,
            taluka_area_sq_km := -5,
            lithology_code := 2,
            lifecycle := ("single crop") } } := by
  refine ⟨rfl, by norm_num, ?_⟩
  unfold groundwater_balance_from_api_input
  rw [if_neg (by decide)]
  have hlook : get_taluka_area_sq_km envNegArea.score envNegArea.taluka_areas
      (envNegArea.admin_taluka.getD "") = some (-5) := rfl
  rw [hlook]
  simp only
  rw [if_neg (show ¬ (-5 : ℚ) = 0 by norm_num)]
  have hsamp : sample_raster envNegArea.raster 1 0 = Except.ok 2 := by
    show sample_raster rasterT 1 0 = Except.ok 2
    unfold sample_raster dsIndex npAxisIndex rasterT
    norm_num
  rw [hsamp]
  simp only
  have h := calculate_resolved envNegArea 1 (-5) 2 envNegArea.slope_deg locX
    (some ("taluka")) entryX 1 rfl rfl rfl
  rw [h]
  have hcat : extract_category entryX.category = ("Safe") := rfl
  have hfac : categoryFactorGet ("Safe") = 0.40 := rfl
  have hlit2 : lithologyFactorGet 2 = 1.00 := rfl
  rw [hcat, hfac, hlit2]
  have harg : (1 : ℚ) * 1000000000 * 1 / (-5 * 10000) * 0.40 * 1.00 *
      slope_factor envNegArea.slope_deg * LIFECYCLE_FACTOR = -5600 := by
    norm_num [slope_factor, LIFECYCLE_FACTOR]
  rw [harg]
  have hfloor : ⌊((-5600 : ℚ) * 100)⌋ = -560000 := by norm_num
  have hr : pythonRound ((-5600 : ℚ) * 100) = -560000 := by
    unfold pythonRound
    rw [hfloor]
    norm_num
  have hround : round2 (-5600 : ℚ) * 100 = (-560000 : ℚ) := by
    rw [round2, hr]
    norm_num
  rw [hround]

/-- C4 (amended): the pipeline fails fast with the structured "Taluka
area not found" error when the resolved unit area is missing or zero
(the falsy guard), and every successful numeric result was computed
with a nonzero resolved area (so the division never divides by zero
and no infinity/NaN can arise); a negative resolved area, however, is
not caught and flows into the computation. -/
theorem pipeline_area_guard (env : PipelineEnv) (lat lon farm : ℚ) :
    (optTruthy env.admin_taluka = true →
      (get_taluka_area_sq_km env.score env.taluka_areas (env.admin_taluka.getD "") =
          Option.none ∨
        get_taluka_area_sq_km env.score env.taluka_areas (env.admin_taluka.getD "") =
          some 0) →
      groundwater_balance_from_api_input env lat lon farm =
        Outcome.err ErrMsg.talukaAreaNotFound) ∧
    (∀ r : BalanceResult,
      groundwater_balance_from_api_input env lat lon farm = Outcome.ok r →
      ∃ a : ℚ,
        get_taluka_area_sq_km env.score env.taluka_areas (env.admin_taluka.getD "") = some a ∧
        a ≠ 0 ∧ r.basis.taluka_area_sq_km = a) := by
  constructor
  · intro ht hz
    unfold groundwater_balance_from_api_input
    rw [ht]
    simp only [Bool.true_eq_false, if_false]
    rcases hz with hz | hz
    · rw [hz]
    · rw [hz]
      simp
  · intro r hr
    unfold groundwater_balance_from_api_input at hr
    split at hr
    · simp at hr
    · rename_i ht
      cases hl : get_taluka_area_sq_km env.score env.taluka_areas (env.admin_taluka.getD "") with
      | none => rw [hl] at hr; simp at hr
      | some a =>
        rw [hl] at hr
        simp only at hr
        by_cases ha : a = 0
        · rw [if_pos ha] at hr
          simp at hr
        · rw [if_neg ha] at hr
          refine ⟨a, rfl, ha, ?_⟩
          cases hs : sample_raster env.raster lat lon with
          | error e => rw [hs] at hr; simp at hr
          | ok code =>
            rw [hs] at hr
            simp only at hr
            exact calculate_ok_basis_area env farm a code env.slope_deg r hr

/-- C4 witness: the zero-area guard observed on the concrete
environment whose area table stores 0 km² for taluka "X". -/
theorem pipeline_area_guard_witness :
    groundwater_balance_from_api_input envZeroArea 0 0 1 =
      Outcome.err ErrMsg.talukaAreaNotFound :=
  (pipeline_area_guard envZeroArea 0 0 1).1 rfl (Or.inr rfl)

/-- C7 counterexample: a coordinate outside the raster extent (half a
pixel west of the grid) does NOT fail — its column index is −1, which
numpy wraps around to the last column, so `sample_raster` silently
returns a classification code. -/
theorem raster_outside_extent_silently_sampled :
    ¬ insideExtent rasterT (-1/2 : ℚ) (3/2 : ℚ) ∧
    sample_raster rasterT (3/2) (-1/2) = Except.ok 1 := by
  constructor
  · intro h
    rcases h with ⟨h1, _⟩
    rw [show rasterT.left = 0 from rfl] at h1
    norm_num at h1
  · unfold sample_raster dsIndex npAxisIndex rasterT
    norm_num

/-- C7 (amended): the Hydrogeology Sampler raises `IndexError` exactly
when a computed cell index leaves numpy's accepted range `[-size, size)`
on either axis — which covers every coordinate beyond the south/east
edges, but NOT the band of coordinates west/north of the origin whose
negative indices wrap around and silently return a classification code
(see the counterexample); coordinates inside the extent always yield
non-negative in-range indices; and when the sampler does raise, the
failure is fatal for the request — the pipeline surfaces the uncaught
exception, with no fallback classification. -/
theorem raster_bounds_and_fatality (ds : Raster) (lat lon : ℚ) :
    ((¬ npInRange ds.rows (dsIndex ds lon lat).1 ∨ ¬ npInRange ds.cols (dsIndex ds lon lat).2) →
      sample_raster ds lat lon = Except.error PyExc.indexError) ∧
    (npInRange ds.rows (dsIndex ds lon lat).1 → npInRange ds.cols (dsIndex ds lon lat).2 →
      ∃ v : ℤ, sample_raster ds lat lon = Except.ok v) ∧
    (0 < ds.xres → 0 < ds.yres → insideExtent ds lon lat →
      0 ≤ (dsIndex ds lon lat).1 ∧ (dsIndex ds lon lat).1 < (ds.rows : ℤ) ∧
        0 ≤ (dsIndex ds lon lat).2 ∧ (dsIndex ds lon lat).2 < (ds.cols : ℤ)) ∧
    (∀ env : PipelineEnv, ∀ farm a : ℚ, ∀ e : PyExc,
      optTruthy env.admin_taluka = true →
      get_taluka_area_sq_km env.score env.taluka_areas (env.admin_taluka.getD "") = some a →
      a ≠ 0 →
      sample_raster env.raster lat lon = Except.error e →
      groundwater_balance_from_api_input env lat lon farm = Outcome.exc e) := by
  refine ⟨?_, ?_, ?_, ?_⟩
  · intro h
    unfold sample_raster npAxisIndex
    unfold npInRange at h
    rcases h with h | h
    · rw [if_neg (by omega), if_neg (by omega)]
    · by_cases hr0 : 0 ≤ (dsIndex ds lon lat).1 ∧ (dsIndex ds lon lat).1 < (ds.rows : ℤ)
      · rw [if_pos hr0]
        simp only
        rw [if_neg (by omega), if_neg (by omega)]
      · rw [if_neg hr0]
        by_cases hr1 : -(ds.rows : ℤ) ≤ (dsIndex ds lon lat).1 ∧ (dsIndex ds lon lat).1 < 0
        · rw [if_pos hr1]
          simp only
          rw [if_neg (by omega), if_neg (by omega)]
        · rw [if_neg hr1]
  · intro hrow hcol
    unfold sample_raster npAxisIndex
    unfold npInRange at hrow hcol
    by_cases hr0 : 0 ≤ (dsIndex ds lon lat).1 ∧ (dsIndex ds lon lat).1 < (ds.rows : ℤ)
    · rw [if_pos hr0]
      simp only
      by_cases hc0 : 0 ≤ (dsIndex ds lon lat).2 ∧ (dsIndex ds lon lat).2 < (ds.cols : ℤ)
      · rw [if_pos hc0]
        exact ⟨_, rfl⟩
      · rw [if_neg hc0, if_pos (by omega)]
        exact ⟨_, rfl⟩
    · rw [if_neg hr0, if_pos (by omega)]
      simp only
      by_cases hc0 : 0 ≤ (dsIndex ds lon lat).2 ∧ (dsIndex ds lon lat).2 < (ds.cols : ℤ)
      · rw [if_pos hc0]
        exact ⟨_, rfl⟩
      · rw [if_neg hc0, if_pos (by omega)]
        exact ⟨_, rfl⟩
  · intro hx hy hin
    obtain ⟨h1, h2, h3, h4⟩ := hin
    unfold dsIndex
    refine ⟨?_, ?_, ?_, ?_⟩
    · apply Int.floor_nonneg.2
      apply div_nonneg (by linarith) (le_of_lt hy)
    · apply Int.floor_lt.2
      rw [div_lt_iff₀ hy]
      push_cast
      linarith
    · apply Int.floor_nonneg.2
      apply div_nonneg (by linarith) (le_of_lt hx)
    · apply Int.floor_lt.2
      rw [div_lt_iff₀ hx]
      push_cast
      linarith
  · intro env farm a e ht hl ha hs
    unfold groundwater_balance_from_api_input
    rw [ht]
    simp only [Bool.true_eq_false, if_false]
    rw [hl]
    simp only
    rw [if_neg ha, hs]

/-- C7 witness: the in-extent branch and the fatal-propagation branch
of the amended statement, applied on the concrete raster and
environment (a coordinate past the east edge raises, and the pipeline
surfaces that `IndexError` uncaught). -/
theorem raster_bounds_and_fatality_witness :
    sample_raster rasterT 1 (5/2) = Except.error PyExc.indexError ∧
    groundwater_balance_from_api_input envX 1 (5/2) 1 = Outcome.exc PyExc.indexError := by
  have herr : sample_raster rasterT 1 (5/2) = Except.error PyExc.indexError := by
    apply (raster_bounds_and_fatality rasterT 1 (5/2)).1
    right
    unfold npInRange dsIndex rasterT
    norm_num
  refine ⟨herr, ?_⟩
  exact (raster_bounds_and_fatality rasterT 1 (5/2)).2.2.2 envX 1 100 PyExc.indexError
    rfl rfl (by norm_num) herr

/-- Every string produced by `extract_category` is either the fallback
"Critical" or the title-casing of some string (helper). -/
theorem extract_category_shape (cat : PyVal) :
    extract_category cat = "Critical" ∨ ∃ s : String, extract_category cat = pyTitle s := by
  unfold extract_category
  by_cases ht : cat.truthy = false
  · rw [if_pos ht]
    left
    rfl
  · rw [if_neg ht]
    cases cat with
    | none => left; rfl
    | int n => left; rfl
    | float q => left; rfl
    | str s => right; exact ⟨s, rfl⟩
    | dict fs =>
      simp only
      cases h1 : List.lookup ("total") fs with
      | some v =>
        simp only
        by_cases hv : v.truthy
        · rw [if_pos hv]
          right
          exact ⟨pyStr v, rfl⟩
        · rw [if_neg hv]
          cases h2 : List.lookup ("non_command") fs with
          | some w =>
            simp only
            by_cases hw : w.truthy
            · rw [if_pos hw]
              right
              exact ⟨pyStr w, rfl⟩
            · rw [if_neg hw]
              left
              rfl
          | none =>
            left
            rfl
      | none =>
        simp only
        cases h2 : List.lookup ("non_command") fs with
        | some w =>
          simp only
          by_cases hw : w.truthy
          · rw [if_pos hw]
            right
            exact ⟨pyStr w, rfl⟩
          · rw [if_neg hw]
            left
            rfl
        | none =>
          left
          rfl

/-- The factor looked up for any title-cased string is 0.40, 0.25 or
0.10, never the Over-exploited 0.05 (helper). -/
theorem categoryFactorGet_pyTitle (s : String) :
    categoryFactorGet (pyTitle s) = 0.40 ∨ categoryFactorGet (pyTitle s) = 0.25 ∨
      categoryFactorGet (pyTitle s) = 0.10 := by
  by_cases h1 : pyTitle s = "Safe"
  · left
    rw [h1]
    rfl
  · by_cases h2 : pyTitle s = "Semi-Critical"
    · right; left
      rw [h2]
      rfl
    · by_cases h3 : pyTitle s = "Critical"
      · right; right
        rw [h3]
        rfl
      · right; right
        have h4 : pyTitle s ≠ "Over-exploited" := pyTitle_ne_overexploited s
        have b1 : (pyTitle s == "Safe") = false := beq_eq_false_iff_ne.2 h1
        have b2 : (pyTitle s == "Semi-Critical") = false := beq_eq_false_iff_ne.2 h2
        have b3 : (pyTitle s == "Critical") = false := beq_eq_false_iff_ne.2 h3
        have b4 : (pyTitle s == "Over-exploited") = false := beq_eq_false_iff_ne.2 h4
        simp [categoryFactorGet, CATEGORY_FACTOR, List.lookup, b1, b2, b3, b4]

/-- C8: composing the category normalization with the factor lookup can
only ever yield 0.40, 0.25 or 0.10 — never the table's 0.05 — because
`extract_category` title-cases every non-absent value, mapping every
spelling of over-exploited to "Over-Exploited", which is not a key of
`CATEGORY_FACTOR` (whose key is "Over-exploited"), so over-exploited
regions receive the default 0.10 instead of 0.05. -/
theorem category_normalization_never_hits_overexploited :
    (∀ cat : PyVal,
      categoryFactorGet (extract_category cat) = 0.40 ∨
        categoryFactorGet (extract_category cat) = 0.25 ∨
        categoryFactorGet (extract_category cat) = 0.10) ∧
    (∀ cat : PyVal, categoryFactorGet (extract_category cat) ≠ 0.05) ∧
    pyTitle ("Over-exploited") = "Over-Exploited" ∧
    pyTitle ("over-exploited") = "Over-Exploited" ∧
    pyTitle ("OVER-EXPLOITED") = "Over-Exploited" ∧
    List.lookup ("Over-Exploited") CATEGORY_FACTOR = Option.none ∧
    categoryFactorGet (extract_category (PyVal.str ("Over-exploited"))) = 0.10 := by
  have hall : ∀ cat : PyVal,
      categoryFactorGet (extract_category cat) = 0.40 ∨
        categoryFactorGet (extract_category cat) = 0.25 ∨
        categoryFactorGet (extract_category cat) = 0.10 := by
    intro cat
    rcases extract_category_shape cat with h | ⟨s, h⟩
    · rw [h]
      right; right
      rfl
    · rw [h]
      exact categoryFactorGet_pyTitle s
  refine ⟨hall, ?_, rfl, rfl, rfl, rfl, rfl⟩
  intro cat hne
  rcases hall cat with h | h | h <;> rw [hne] at h <;> norm_num at h

/-- C3 witness: the fine-grained branch of the resolver applied on the
concrete registry — the district name is irrelevant once the taluka
matches. -/
theorem resolver_fallback_order_witness :
    fetch_ingres_with_fallback scoreZero [locX] (some ("X")) (some ("D")) =
      (some locX, some ("taluka")) :=
  (resolver_fallback_order scoreZero [locX] (some ("X")) (some ("D"))).1 locX rfl rfl
    (some ("D"))

/-- C8 witness: the concrete over-exploited category string lands on
the default factor 0.10. -/
theorem category_normalization_never_hits_overexploited_witness :
    categoryFactorGet (extract_category (PyVal.str ("Over-exploited"))) = 0.10 :=
  category_normalization_never_hits_overexploited.2.2.2.2.2.2
